import Mathlib

/-!
Shallow embedding of the FEM model-construction core of the shamo repository
(src/src/shamo/core/fem/fem.py). Coordinates and field values are modelled as
rationals; numpy arrays become lists; the gmsh mesh backend becomes an explicit
`Mesh` state record; fallible Python code returns `Option` or `Except`.
-/

namespace Shamo

/-- A 3-component coordinate (meters once inside the mesh domain). -/
structure Vec3 where
  x : Rat
  y : Rat
  z : Rat
deriving DecidableEq, Repr

/-- Squared Euclidean distance. `scipy.spatial.distance.cdist` computes the
Euclidean distance; since the square root is strictly monotone, minimising the
distance and minimising the squared distance select the same indices, so the
embedding keeps the exact rational squared distance. -/
def distSq (a b : Vec3) : Rat :=
  (a.x - b.x) * (a.x - b.x) + (a.y - b.y) * (a.y - b.y) + (a.z - b.z) * (a.z - b.z)

/-- The millimeter-to-meter factor `1e-3` applied at the mesh boundary. -/
def mmPerM : Rat := 1 / 1000

/-- Python dict assignment `d[k] = v`: replace the first binding of `k`, else
append a new binding. -/
def dictInsert {α : Type} : List (String × α) → String → α → List (String × α)
  | [], k, v => [(k, v)]
  | (k0, v0) :: rest, k, v =>
    if k0 = k then (k, v) :: rest else (k0, v0) :: dictInsert rest k v

/-- `np.argmin`: index of the first occurrence of the minimum of a list. -/
def argminIdx : List Rat → Nat
  | [] => 0
  | [_] => 0
  | x :: y :: ys =>
    let j := argminIdx (y :: ys)
    if (y :: ys).getD j 0 < x then j + 1 else 0

/-- `np.max` over a flattened nonnegative-integer array (0 on empty; the
callers guard emptiness where Python would raise). -/
def maxNat (l : List Nat) : Nat := l.foldr max 0

/-- A tuple of exactly three coordinates; `none` models the Python errors
raised on malformed coordinate containers. -/
def toVec3? : List Rat → Option Vec3
  | [x, y, z] => some ⟨x, y, z⟩
  | _ => none

-- Gmsh mesh state -----------------------------------------------------------

/-- One gmsh physical group: a dimension, an integer tag and the wrapped
geometric entities, as returned by `gmsh.model.getPhysicalGroups`. -/
structure PhysGroup where
  dim : Nat
  tag : Nat
  entities : List Nat
deriving DecidableEq, Repr

/-- The observable state of the gmsh mesh file used by fem.py: physical
groups, their names, the discrete point entities added for sensors, and the
per-(dimension, entity) node / element / barycenter data exposed by
`gmsh.model.mesh`. -/
structure Mesh where
  groups : List PhysGroup
  physNames : List ((Nat × Nat) × String)
  entities0 : List Nat
  nodeData : List ((Nat × Nat) × List (Nat × Vec3))
  pointElems : List (Nat × Nat)
  elemData : List ((Nat × Nat) × List Nat)
  baryData : List ((Nat × Nat) × List Vec3)
  views : List (String × List Nat × List Rat)
deriving DecidableEq, Repr

/-- Largest physical-group tag in the mesh (0 when there is none; the one
caller that needs `max` to raise on an empty list guards it explicitly). -/
def maxTag (m : Mesh) : Nat := m.groups.foldr (fun g acc => max g.tag acc) 0

/-- `gmsh.model.addPhysicalGroup(dim, ents)` with automatic tag: gmsh picks
the current maximum physical tag plus one. -/
def addPhysicalGroupAuto (m : Mesh) (dim : Nat) (ents : List Nat) : Mesh × Nat :=
  let tag := maxTag m + 1
  ({ m with groups := ⟨dim, tag, ents⟩ :: m.groups }, tag)

/-- `gmsh.model.addPhysicalGroup(dim, ents, tag)` with an explicit tag. -/
def addPhysicalGroupTagged (m : Mesh) (dim : Nat) (ents : List Nat) (tag : Nat) :
    Mesh × Nat :=
  ({ m with groups := ⟨dim, tag, ents⟩ :: m.groups }, tag)

/-- `gmsh.model.setPhysicalName(dim, tag, name)`. -/
def setPhysicalName (m : Mesh) (dim tag : Nat) (name : String) : Mesh :=
  { m with physNames := ((dim, tag), name) :: m.physNames }

/-- `gmsh.model.addDiscreteEntity(0)`: a fresh 0-dimensional entity tag. -/
def addDiscreteEntity0 (m : Mesh) : Mesh × Nat :=
  let e := m.entities0.foldr max 0 + 1
  ({ m with entities0 := e :: m.entities0 }, e)

/-- `gmsh.model.mesh.getNodes(dim, e, True)`: tags and coordinates of the
nodes classified on (or bounding) entity `e` of dimension `dim`. -/
def getNodes (m : Mesh) (dim ent : Nat) : List (Nat × Vec3) :=
  (m.nodeData.lookup (dim, ent)).getD []

/-- `gmsh.model.mesh.addNodes(0, entity, [tag], coords)`. -/
def addNodes0 (m : Mesh) (ent tag : Nat) (c : Vec3) : Mesh :=
  { m with nodeData := ((0, ent), [(tag, c)]) :: m.nodeData }

/-- `gmsh.model.mesh.addElementsByType(entity, 15, [], [tag])`: a degenerate
point element on the given node. -/
def addPointElem (m : Mesh) (ent tag : Nat) : Mesh :=
  { m with pointElems := (ent, tag) :: m.pointElems }

/-- `gmsh.model.mesh.getElements(dim, e)[1]`: the element tags of entity `e`. -/
def getElems (m : Mesh) (dim ent : Nat) : List Nat :=
  (m.elemData.lookup (dim, ent)).getD []

/-- `gmsh.model.mesh.getBarycenters(etype, e, ...)` reshaped to coordinates. -/
def getBarycenters (m : Mesh) (etype ent : Nat) : List Vec3 :=
  (m.baryData.lookup (etype, ent)).getD []

/-- `gmsh.model.mesh.removeDuplicateNodes()`: merge coincident duplicate node
records; the sensor registry is written before this cleanup runs. -/
def removeDuplicateNodes (m : Mesh) : Mesh :=
  { m with nodeData := m.nodeData.map (fun p => (p.1, p.2.dedup)) }

/-- The success path of `gmsh.view.add(name)` followed by
`gmsh.view.addModelData(...)`: record a named view holding per-element data
and return its handle. The consistency failures of that pair live in
`_add_field_view`, which is the only caller. -/
def addView (m : Mesh) (name : String) (tags : List Nat) (vals : List Rat) :
    Mesh × Nat :=
  ({ m with views := (name, tags, vals) :: m.views }, m.views.length + 1)

-- Model data classes --------------------------------------------------------

/-- Modelled from the spec: the scalar/vector/tensor type tag of a `Field`
(§3, determined by value arity 1/3/9); the `Field` class itself is outside
src/. -/
inductive FieldType where
  | scalar
  | vector
  | tensor
deriving DecidableEq, Repr

/-- The dict `{1: Field.SCALAR, 3: Field.VECTOR, 9: Field.TENSOR}` used by
`field_from_elems` to classify the value arity. -/
def fieldTypeOf (n : Nat) : Option FieldType :=
  if n = 1 then some .scalar
  else if n = 3 then some .vector
  else if n = 9 then some .tensor
  else none

/-- Modelled from the spec: `Field` metadata (§3) — a type tag, the mesh view
handle and a formula string; the class definition is outside src/. -/
structure Field where
  fieldType : FieldType
  view : Nat
  formula : String
deriving DecidableEq, Repr

/-- Modelled from the spec: a `Group` (§3) — a dimensionality, the ordered
mesh entity identifiers and the physical-group identifier; constructed in
fem.py as `Group(dim, [entity], tag)`; the class definition is outside src/. -/
structure Group where
  dim : Nat
  entities : List Nat
  group : Nat
deriving DecidableEq, Repr

/-- Modelled from the spec: a `Tissue` (§3) — one surface group, one volume
group and a mapping from field name to `Field`; constructed in fem.py as
`Tissue(surf_group, vol_group)`; the class definition is outside src/. -/
structure Tissue where
  surf : Group
  vol : Group
  fields : List (String × Field)
deriving DecidableEq, Repr

/-- Modelled from the spec: a `PointSensor` (§3) — owning tissue, requested
coordinates (meters), snapped mesh coordinates, the 0-dimensional group and
the mesh node identifier; constructed in fem.py as
`PointSensor(tissue, coords, mesh_coords, Group(0, [entity], group), node_tag)`;
the class definition is outside src/. -/
structure PointSensor where
  tissue : String
  coords : Vec3
  meshCoords : Vec3
  group : Group
  node : Nat
deriving DecidableEq, Repr

/-- The `FEM` model state touched by the embedded operations: the tissue and
sensor registries plus the content of the backing mesh file. -/
structure FEM where
  tissues : List (String × Tissue)
  sensors : List (String × PointSensor)
  mesh : Mesh
deriving DecidableEq, Repr

instance {ε α : Type} [DecidableEq ε] [DecidableEq α] : DecidableEq (Except ε α) :=
  fun x y =>
    match x, y with
    | .ok a, .ok b =>
      if h : a = b then isTrue (by rw [h])
      else isFalse (fun hc => h (Except.ok.inj hc))
    | .error a, .error b =>
      if h : a = b then isTrue (by rw [h])
      else isFalse (fun hc => h (Except.error.inj hc))
    | .ok _, .error _ => isFalse (fun hc => Except.noConfusion hc)
    | .error _, .ok _ => isFalse (fun hc => Except.noConfusion hc)

/-- The Python exceptions raised by the embedded operations. -/
inductive Err where
  | typeError
  | invalidShape
  | invalidCoords
  | duplicateSensor
  | unknownTissue
  | tissueCountMismatch
  | duplicateField
  | valueArity
  | fillValMismatch
  | zeroDivision
  | broadcastError
  | reshapeError
  | viewDataMismatch
  | meshError
  | nameError
deriving DecidableEq, Repr

-- Mesh generation (fem.py 130-219, 439-457) ----------------------------------

/-- The validation phase of `mesh_from_array` (fem.py 184-211). `labels` is
the flattened label array, `ndim` its rank, `affineShape` the shape of the
affine matrix and `tissues` the ordered tissue names. The source casts the
labels to `np.uint8` (wrapping modulo 256) before any shape or count check;
the returned payload is the wrapped label list handed on to cropping and
meshing. `np.max` on an empty array raises, modelled as `meshError`. -/
def mesh_from_array_valid (labels : List Nat) (ndim : Nat) (affineShape : Nat × Nat)
    (tissues : List String) : Except Err (List Nat) :=
  let labels8 := labels.map (fun v => v % 256)
  if ndim ≠ 3 then .error .invalidShape
  else if ¬ (affineShape = (3, 4) ∨ affineShape = (4, 4)) then .error .invalidShape
  else if labels8 = [] then .error .meshError
  else if tissues.length ≠ maxNat labels8 then .error .tissueCountMismatch
  else .ok labels8

/-- The loop body fold of `_add_tissues` (fem.py 439-457): for the tissue at
0-based position `l`, entity `l + 1` receives one surface (dim 2) and one
volume (dim 3) physical group, each named after the tissue, and the registry
entry `Tissue(Group(2, [entity], surf_group), Group(3, [entity], vol_group))`
is stored under the tissue name. -/
def addTissuesGo (m : Mesh) (reg : List (String × Tissue)) (l : Nat) :
    List String → Mesh × List (String × Tissue)
  | [] => (m, reg)
  | t :: ts =>
    let entity := l + 1
    let p1 := addPhysicalGroupAuto m 2 [entity]
    let m2 := setPhysicalName p1.1 2 p1.2 t
    let p3 := addPhysicalGroupAuto m2 3 [entity]
    let m4 := setPhysicalName p3.1 3 p3.2 t
    let tis : Tissue := ⟨⟨2, [entity], p1.2⟩, ⟨3, [entity], p3.2⟩, []⟩
    addTissuesGo m4 (dictInsert reg t tis) (l + 1) ts

/-- `_add_tissues` run on the freshly merged initial mesh, which carries no
physical groups yet (it is written by `_apply_transform` straight from the
raw CGAL mesh). Returns the final mesh state and the tissue registry. -/
def _add_tissues (tissues : List String) : Mesh × List (String × Tissue) :=
  addTissuesGo ⟨[], [], [], [], [], [], [], []⟩ [] 0 tissues

-- Sensors (fem.py 461-615) ---------------------------------------------------

/-- `_get_tissue_nodes` (fem.py 570-590): concatenate the tagged nodes of the
entities of the surface (`dim = 2`) or volume (`dim = 3`) group of the tissue.
Any other `dim` leaves the local `entities` unbound in the source
(UnboundLocalError); an empty entity list makes the source index `nodes[0]`
inside a debug format string (IndexError); both are modelled as `none`. -/
def _get_tissue_nodes (fem : FEM) (tissue : String) (dim : Nat) :
    Option (List Nat × List Vec3) :=
  match fem.tissues.lookup tissue with
  | none => none
  | some t =>
    let ents? : Option (List Nat) :=
      if dim = 2 then some t.surf.entities
      else if dim = 3 then some t.vol.entities
      else none
    match ents? with
    | none => none
    | some ents =>
      if ents = [] then none
      else
        let nodes := ents.flatMap (fun e => getNodes fem.mesh dim e)
        some (nodes.map Prod.fst, nodes.map Prod.snd)

/-- `_add_point_sensor_on_node` (fem.py 607-615): create a fresh discrete
point entity carrying the chosen node and a degenerate point element, then
allocate a physical group whose tag is the current maximum physical-group tag
over all dimensions plus one, named after the sensor. Python `max` on an
empty group list raises (modelled as `none`). -/
def _add_point_sensor_on_node (m : Mesh) (name : String) (nodeTag : Nat)
    (nodeCoords : Vec3) : Option (Mesh × Nat × Nat) :=
  let p := addDiscreteEntity0 m
  let m2 := addNodes0 p.1 p.2 nodeTag nodeCoords
  let m3 := addPointElem m2 p.2 nodeTag
  if m3.groups = [] then none
  else
    let maxGroup := maxTag m3
    let q := addPhysicalGroupTagged m3 0 [p.2] (maxGroup + 1)
    some (setPhysicalName q.1 0 q.2 name, p.2, q.2)

/-- `_add_point_sensor` (fem.py 595-605): squared-distance argmin over the
candidate nodes (`cdist` plus `np.argmin`, ties to the first occurrence),
then sensor creation on the chosen node and registry insertion. `np.argmin`
on an empty distance array raises (modelled as `none`). -/
def _add_point_sensor (m : Mesh) (sensors : List (String × PointSensor))
    (name : String) (coords : Vec3) (nodesTags : List Nat)
    (nodesCoords : List Vec3) (tissue : String) :
    Option (Mesh × List (String × PointSensor)) :=
  if nodesCoords = [] then none
  else
    let dist := nodesCoords.map (fun c => distSq coords c)
    let i := argminIdx dist
    let nodeTag := nodesTags.getD i 0
    let meshCoords := nodesCoords.getD i ⟨0, 0, 0⟩
    match _add_point_sensor_on_node m name nodeTag meshCoords with
    | none => none
    | some (m1, entity, group) =>
      some (m1, dictInsert sensors name
        ⟨tissue, coords, meshCoords, ⟨0, [entity], group⟩, nodeTag⟩)

/-- `add_point_sensor` (fem.py 461-515): duplicate-name, coordinate-arity and
tissue checks run before the mesh file is opened; the requested coordinates
are scaled by `1e-3`; the sensor is placed on the nearest tissue node and the
mesh is re-written after a duplicate-node merge. -/
def add_point_sensor (fem : FEM) (name : String) (coords : List Rat)
    (tissue : String) (dim : Nat) : Except Err FEM :=
  if (fem.sensors.lookup name).isSome then .error .duplicateSensor
  else if coords.length ≠ 3 then .error .invalidCoords
  else
    let c := coords.map (fun v => mmPerM * v)
    if (fem.tissues.lookup tissue).isNone then .error .unknownTissue
    else
      match _get_tissue_nodes fem tissue dim with
      | none => .error .meshError
      | some (tags, ncoords) =>
        match toVec3? c with
        | none => .error .meshError
        | some cv =>
          match _add_point_sensor fem.mesh fem.sensors name cv tags ncoords tissue with
          | none => .error .meshError
          | some (m1, sensors1) =>
            .ok { fem with mesh := removeDuplicateNodes m1, sensors := sensors1 }

/-- The per-sensor loop of `add_point_sensors` (fem.py 556-560): every entry
is placed with the node tags and coordinates captured once before the loop. -/
def addPointSensorsGo (m : Mesh) (sensors : List (String × PointSensor))
    (tags : List Nat) (ncoords : List Vec3) (tissue : String) :
    List (String × List Rat) → Option (Mesh × List (String × PointSensor))
  | [] => some (m, sensors)
  | (s, c) :: rest =>
    match toVec3? c with
    | none => none
    | some cv =>
      match _add_point_sensor m sensors s cv tags ncoords tissue with
      | none => none
      | some (m1, sensors1) => addPointSensorsGo m1 sensors1 tags ncoords tissue rest

/-- `add_point_sensors` (fem.py 520-565): the batch variant scales every
coordinate by `1e-3`, checks the tissue, and places all sensors in one mesh
session. Note that, unlike the single-sensor variant, the source performs no
duplicate-name check: an existing sensor name is silently overwritten by the
dict assignment inside `_add_point_sensor`. -/
def add_point_sensors (fem : FEM) (coords : List (String × List Rat))
    (tissue : String) (dim : Nat) : Except Err FEM :=
  let coordsM := coords.map (fun p => (p.1, p.2.map (fun v => mmPerM * v)))
  if (fem.tissues.lookup tissue).isNone then .error .unknownTissue
  else
    match _get_tissue_nodes fem tissue dim with
    | none => .error .meshError
    | some (tags, ncoords) =>
      match addPointSensorsGo fem.mesh fem.sensors tags ncoords tissue coordsM with
      | none => .error .meshError
      | some (m1, sensors1) =>
        .ok { fem with mesh := removeDuplicateNodes m1, sensors := sensors1 }

-- Fields (fem.py 624-893) ----------------------------------------------------

/-- `_get_tissue_elems(tissue, 3)` (fem.py 814-823): concatenation of the
element tags of the volume entities of the tissue. Only reached after the
caller has checked the tissue exists, so the missing-tissue branch is inert. -/
def _get_tissue_vol_elems (fem : FEM) (tissue : String) : List Nat :=
  match fem.tissues.lookup tissue with
  | none => []
  | some t => t.vol.entities.flatMap (fun e => getElems fem.mesh 3 e)

/-- `_get_tissue_elems_coords(tissue, 3)` (fem.py 825-843): barycenters of
the tetrahedral (element type 4) elements of the volume entities. -/
def _get_tissue_vol_elems_coords (fem : FEM) (tissue : String) : List Vec3 :=
  match fem.tissues.lookup tissue with
  | none => []
  | some t => t.vol.entities.flatMap (fun e => getBarycenters fem.mesh 4 e)

/-- `np.broadcast_to(v, (1, n)).ravel()` for a 1-D `v`: legal exactly when
`v` has size `n` (kept as is) or size 1 (repeated `n` times); any other size
raises a ValueError, modelled as `none`. -/
def broadcast_to1 (v : List Rat) (n : Nat) : Option (List Rat) :=
  if v.length = n then some v
  else if v.length = 1 then some (List.replicate n (v.getD 0 0))
  else none

/-- `_fill_empty_field_elems` (fem.py 845-859): the volume elements of the
tissue absent from `elems_tags` (`np.isin(..., invert=True)`) are appended
with fill values produced by `np.broadcast_to(fill_val, (1, n_empty * n_vals))`;
when nothing is missing the inputs pass through unchanged. -/
def _fill_empty_field_elems (fem : FEM) (tissue : String) (elemsTags : List Nat)
    (elemsVals : List Rat) (nVals : Nat) (fillVal : List Rat) :
    Option (List Nat × List Rat) :=
  let allElemsTags := _get_tissue_vol_elems fem tissue
  let emptyElemsTags := allElemsTags.filter (fun t => ¬ elemsTags.contains t)
  if emptyElemsTags = [] then some (elemsTags, elemsVals)
  else
    match broadcast_to1 fillVal (emptyElemsTags.length * nVals) with
    | none => none
    | some emptyElemsVals =>
      some (elemsTags ++ emptyElemsTags, elemsVals ++ emptyElemsVals)

/-- `_add_field_view` (fem.py 861-870): attach the combined element data as
the view named `"{tissue}_{name}"`. The source first reshapes the values via
`elems_vals.reshape((-1, n_vals))`, which raises a numpy ValueError when the
total value count is not a multiple of `n_vals`, then calls
`gmsh.view.addModelData(view, 0, model, "ElementData", elems_tags, vals)`,
which raises a gmsh exception when the number of element tags differs from
the number of data rows; only when both checks pass is the view recorded. -/
def _add_field_view (m : Mesh) (name tissue : String) (elemsTags : List Nat)
    (elemsVals : List Rat) (nVals : Nat) : Except Err (Mesh × Nat) :=
  if elemsVals.length % nVals ≠ 0 then .error .reshapeError
  else if elemsTags.length ≠ elemsVals.length / nVals then
    .error .viewDataMismatch
  else .ok (addView m (tissue ++ "_" ++ name) elemsTags elemsVals)

/-- `field_from_elems` (fem.py 624-700). The value arity is
`int(elems_vals.size / elems_tags.size)`: Python float division truncated
toward zero, i.e. the floor of the quotient for these nonnegative sizes (an
empty `elems_tags` raises ZeroDivisionError). The arity classifies the field
type via `{1, 3, 9}`; `fill_val` must have exactly that many components; the
missing volume elements are filled, the combined data is written as the view
named `"{tissue}_{name}"` — a step with failure modes of its own (see
`_add_field_view`) whose exceptions propagate out of the open mesh session —
and on success the `Field` record is stored on the tissue. -/
def field_from_elems (fem : FEM) (name tissue : String) (elemsTags : List Nat)
    (elemsVals : List Rat) (fillVal : List Rat) (formula : String) :
    Except Err FEM :=
  match fem.tissues.lookup tissue with
  | none => .error .unknownTissue
  | some t =>
    if (t.fields.lookup name).isSome then .error .duplicateField
    else if elemsTags.length = 0 then .error .zeroDivision
    else
      let nVals := elemsVals.length / elemsTags.length
      match fieldTypeOf nVals with
      | none => .error .valueArity
      | some ft =>
        if fillVal.length ≠ nVals then .error .fillValMismatch
        else
          match _fill_empty_field_elems fem tissue elemsTags elemsVals nVals fillVal with
          | none => .error .broadcastError
          | some (tags1, vals1) =>
            match _add_field_view fem.mesh name tissue tags1 vals1 nVals with
            | .error e => .error e
            | .ok (mesh1, view) =>
              let t1 : Tissue :=
                ⟨t.surf, t.vol, dictInsert t.fields name ⟨ft, view, formula⟩⟩
              .ok ⟨dictInsert fem.tissues tissue t1, fem.sensors, mesh1⟩

-- Grid interpolation (fem.py 702-774, 872-893) -------------------------------

/-- A 3-D voxel grid of scalar field values (the 3-D scalar specialisation of
the source field arrays; access is row-major like the numpy array). -/
abbrev Grid3 := List (List (List Rat))

/-- Value of the grid at integer indices. -/
def gridAt (g : Grid3) (i j k : Nat) : Rat :=
  ((g.getD i []).getD j []).getD k 0

/-- Insert a value into an ascending-sorted list, keeping it sorted. -/
def insertSorted (x : Rat) : List Rat → List Rat
  | [] => [x]
  | y :: ys => if x ≤ y then x :: y :: ys else y :: insertSorted x ys

/-- `np.unique`: the ascending-sorted list of the distinct values. -/
def npUnique (l : List Rat) : List Rat :=
  l.dedup.foldr insertSorted []

/-- The interpolation methods accepted by `RegularGridInterpolator` as used
by `_interp_field`. -/
inductive InterpMethod where
  | nearest
  | linear
deriving DecidableEq, Repr

/-- The out-of-bounds test of `RegularGridInterpolator` on one axis: the
query lies strictly below the first or strictly above the last grid value. -/
def oob (axis : List Rat) (q : Rat) : Bool :=
  decide (q < axis.headD 0) || decide (axis.getLastD 0 < q)

/-- The cell search of `RegularGridInterpolator`:
`searchsorted(axis, q, side=right) - 1`, clamped into `[0, len - 2]`. -/
def findCell (axis : List Rat) (q : Rat) : Nat :=
  let i := (axis.filter (fun v => decide (v ≤ q))).length - 1
  min i (axis.length - 2)

/-- The nearest-neighbor index choice of `RegularGridInterpolator`: the lower
cell corner when the query is at most the cell midpoint, else the upper one;
a single-value axis always answers index 0 (the degenerate-axis case). -/
def nearestIdx (axis : List Rat) (q : Rat) : Nat :=
  if axis.length = 1 then 0
  else
    let i := findCell axis q
    if q ≤ (axis.getD i 0 + axis.getD (i + 1) 0) / 2 then i else i + 1

/-- The cell index and linear weight on one axis; a degenerate axis gets
weight 0 at index 0. -/
def lerpWeight (axis : List Rat) (q : Rat) : Nat × Rat :=
  if axis.length ≤ 1 then (0, 0)
  else
    let i := findCell axis q
    let x0 := axis.getD i 0
    let x1 := axis.getD (i + 1) 0
    (i, if x1 = x0 then 0 else (q - x0) / (x1 - x0))

/-- `RegularGridInterpolator((x, y, z), field, method, bounds_error=False,
fill_value=fill)` applied to one query point: any coordinate outside its axis
bounds yields the fill value; otherwise nearest-neighbor lookup or trilinear
interpolation over the enclosing cell. -/
def interpRGI (xs ys zs : List Rat) (g : Grid3) (method : InterpMethod)
    (fill : Rat) (q : Vec3) : Rat :=
  if oob xs q.x || oob ys q.y || oob zs q.z then fill
  else
    match method with
    | .nearest => gridAt g (nearestIdx xs q.x) (nearestIdx ys q.y) (nearestIdx zs q.z)
    | .linear =>
      let px := lerpWeight xs q.x
      let py := lerpWeight ys q.y
      let pz := lerpWeight zs q.z
      let c := fun di dj dk => gridAt g (px.1 + di) (py.1 + dj) (pz.1 + dk)
      (1 - px.2) * (1 - py.2) * (1 - pz.2) * c 0 0 0
        + px.2 * (1 - py.2) * (1 - pz.2) * c 1 0 0
        + (1 - px.2) * py.2 * (1 - pz.2) * c 0 1 0
        + (1 - px.2) * (1 - py.2) * pz.2 * c 0 0 1
        + px.2 * py.2 * (1 - pz.2) * c 1 1 0
        + px.2 * (1 - py.2) * pz.2 * c 1 0 1
        + (1 - px.2) * py.2 * pz.2 * c 0 1 1
        + px.2 * py.2 * pz.2 * c 1 1 1

/-- `_interp_field` (fem.py 879-893): build the interpolant over the unique
sorted per-axis values of the voxel coordinates and evaluate it at the
barycenters of the volume elements of the tissue, pairing the results with
the element tags. -/
def _interp_field (fem : FEM) (tissue : String) (coords : List Vec3)
    (field : Grid3) (method : InterpMethod) (fill : Rat) :
    List Nat × List Rat :=
  let x := npUnique (coords.map Vec3.x)
  let y := npUnique (coords.map Vec3.y)
  let z := npUnique (coords.map Vec3.z)
  let elemsTags := _get_tissue_vol_elems fem tissue
  let elemsCoords := _get_tissue_vol_elems_coords fem tissue
  (elemsTags, elemsCoords.map (fun c => interpRGI x y z field method fill c))

/-- Left-multiplication by `np.diag([1e-3, 1e-3, 1e-3, 1])`: scale the first
three affine rows from millimeters to meters. -/
def scaleAffine (a : List (List Rat)) : List (List Rat) :=
  (a.take 3).map (fun r => r.map (fun v => mmPerM * v)) ++ a.drop 3

/-- `nib.affines.apply_affine` on one integer voxel index. -/
def applyAffine (a : List (List Rat)) (i j k : Nat) : Vec3 :=
  let row := fun (r : List Rat) =>
    r.getD 0 0 * i + r.getD 1 0 * j + r.getD 2 0 * k + r.getD 3 0
  ⟨row (a.getD 0 []), row (a.getD 1 []), row (a.getD 2 [])⟩

/-- `_get_field_coords` (fem.py 872-877): the physical coordinates of every
voxel index of the given shape, in C (row-major) order. -/
def _get_field_coords (shape : Nat × Nat × Nat) (a : List (List Rat)) :
    List Vec3 :=
  (List.range shape.1).flatMap (fun i =>
    (List.range shape.2.1).flatMap (fun j =>
      (List.range shape.2.2).map (fun k => applyAffine a i j k)))

/-- `field_from_array` (fem.py 702-774), 3-D scalar specialisation: the type
`Grid3` is three-dimensional by construction so the 3D/4D rank validation of
the source is satisfied; the affine shape is validated, normalised to a
homogeneous 4x4 and rescaled to meters; the voxel coordinates are computed,
the field is interpolated at the tissue barycenters with the scalar fill
value, and the result is delegated to `field_from_elems`. -/
def field_from_array (fem : FEM) (name : String) (field : Grid3)
    (shape : Nat × Nat × Nat) (affine : List (List Rat)) (tissue : String)
    (fillVal : List Rat) (formula : String) (nearest : Bool) : Except Err FEM :=
  if ¬ ((affine.length = 3 ∨ affine.length = 4) ∧
      affine.all (fun r => r.length = 4)) then .error .invalidShape
  else
    let affine1 := affine.take 3 ++ [[0, 0, 0, 1]]
    let affine2 := scaleAffine affine1
    if (fem.tissues.lookup tissue).isNone then .error .unknownTissue
    else
      let coords := _get_field_coords shape affine2
      let r := _interp_field fem tissue coords field
        (if nearest then .nearest else .linear) (fillVal.getD 0 0)
      field_from_elems fem name tissue r.1 r.2 fillVal formula

/-- `field_from_nii` (fem.py 776-812). After loading the image the source
delegates via
`self.field_from_array(name, img.get_fdata(), img.affine, tissues, fill_val,
formula, nearest)` where the name `tissues` is unbound in that scope (it is
neither a local of the method nor a module global of fem.py), so evaluating
the argument list raises a NameError before `field_from_array` is entered;
the `tissue` parameter of the method is never forwarded. -/
def field_from_nii (_fem : FEM) (_name : String) (_imgData : Grid3)
    (_imgShape : Nat × Nat × Nat) (_imgAffine : List (List Rat))
    (_tissue : String) (_fillVal : List Rat) (_formula : String)
    (_nearest : Bool) : Except Err FEM :=
  .error .nameError

-- Concrete example models ----------------------------------------------------

/-- A tissue occupying entity 1 with surface group 1 and volume group 2. -/
def tissueEx : Tissue := ⟨⟨2, [1], 1⟩, ⟨3, [1], 2⟩, []⟩

/-- A mesh whose volume entity 1 carries three nodes at 5, 1 and 3 meters
from the origin along the x axis (the synthetic distance-[5,1,3] layout of
the spec test), plus the tissue physical groups. -/
def meshSensor : Mesh :=
  { groups := [⟨2, 1, [1]⟩, ⟨3, 2, [1]⟩]
    physNames := [((2, 1), "t"), ((3, 2), "t")]
    entities0 := []
    nodeData := [((3, 1), [(10, ⟨5, 0, 0⟩), (11, ⟨1, 0, 0⟩), (12, ⟨3, 0, 0⟩)])]
    pointElems := []
    elemData := []
    baryData := []
    views := [] }

/-- A model with one tissue and the sensor-layout mesh, no sensors yet. -/
def femSensor : FEM := ⟨[("t", tissueEx)], [], meshSensor⟩

/-- An already-registered point sensor named s1, sitting on node 10. -/
def sensorEx : PointSensor := ⟨"t", ⟨0, 0, 0⟩, ⟨5, 0, 0⟩, ⟨0, [9], 3⟩, 10⟩

/-- The sensor model with an existing sensor s1 in its registry. -/
def femDup : FEM := { femSensor with sensors := [("s1", sensorEx)] }

/-- A model whose tissue volume holds two tetrahedra with barycenters at the
origin and at one millimeter along x. -/
def femGrid : FEM :=
  ⟨[("t", tissueEx)], [],
    { groups := [⟨2, 1, [1]⟩, ⟨3, 2, [1]⟩]
      physNames := []
      entities0 := []
      nodeData := []
      pointElems := []
      elemData := [((3, 1), [1, 2])]
      baryData := [((4, 1), [⟨0, 0, 0⟩, ⟨1/1000, 0, 0⟩])]
      views := [] }⟩

/-- A model whose single tetrahedron has its barycenter far outside the
voxel grid. -/
def femFar : FEM :=
  ⟨[("t", tissueEx)], [],
    { groups := [⟨2, 1, [1]⟩, ⟨3, 2, [1]⟩]
      physNames := []
      entities0 := []
      nodeData := []
      pointElems := []
      elemData := [((3, 1), [1])]
      baryData := [((4, 1), [⟨100, 0, 0⟩])]
      views := [] }⟩

/-- A constant 2 x 2 x 2 scalar voxel grid of value 5. -/
def grid9 : Grid3 := [[[5, 5], [5, 5]], [[5, 5], [5, 5]]]

/-- The identity 4 x 4 affine (voxel indices in millimeters). -/
def affId : List (List Rat) :=
  [[1, 0, 0, 0], [0, 1, 0, 0], [0, 0, 1, 0], [0, 0, 0, 1]]

-- Helper lemmas --------------------------------------------------------------

theorem lookup_dictInsert_self {α : Type} (l : List (String × α)) (k : String)
    (v : α) : (dictInsert l k v).lookup k = some v := by
  induction l with
  | nil => simp [dictInsert, List.lookup]
  | cons p rest ih =>
    obtain ⟨k0, v0⟩ := p
    by_cases h : k0 = k
    · simp [dictInsert, h, List.lookup]
    · have hb : (k == k0) = false := beq_eq_false_iff_ne.mpr (Ne.symm h)
      simp [dictInsert, h, List.lookup, hb, ih]

theorem lookup_dictInsert_ne {α : Type} (l : List (String × α)) (k k2 : String)
    (v : α) (h : k ≠ k2) : (dictInsert l k2 v).lookup k = l.lookup k := by
  have hb2 : (k == k2) = false := beq_eq_false_iff_ne.mpr h
  induction l with
  | nil => simp [dictInsert, List.lookup, hb2]
  | cons p rest ih =>
    obtain ⟨k0, v0⟩ := p
    by_cases h0 : k0 = k2
    · subst h0
      simp [dictInsert, List.lookup, hb2]
    · by_cases hk : k = k0
      · subst hk
        simp [dictInsert, h0, List.lookup]
      · have hb0 : (k == k0) = false := beq_eq_false_iff_ne.mpr hk
        simp [dictInsert, h0, List.lookup, hb0, ih]

theorem argminIdx_lt_length : ∀ (l : List Rat), l ≠ [] → argminIdx l < l.length
  | [], h => absurd rfl h
  | [_], _ => Nat.zero_lt_one
  | x :: y :: ys, _ => by
    have ih := argminIdx_lt_length (y :: ys) (List.cons_ne_nil y ys)
    simp only [argminIdx]
    split
    · simpa using Nat.succ_lt_succ ih
    · simp

theorem argminIdx_min : ∀ (l : List Rat) (j : Nat), j < l.length →
    l.getD (argminIdx l) 0 ≤ l.getD j 0
  | [], _, hj => by simp at hj
  | [x], j, hj => by
    have : j = 0 := by simpa using Nat.lt_one_iff.mp (by simpa using hj)
    simp [this, argminIdx]
  | x :: y :: ys, j, hj => by
    have ihlt := argminIdx_lt_length (y :: ys) (List.cons_ne_nil y ys)
    simp only [argminIdx]
    split
    · next hmin =>
      rw [List.getD_cons_succ]
      cases j with
      | zero => exact le_of_lt (by simpa using hmin)
      | succ j1 =>
        rw [List.getD_cons_succ]
        exact argminIdx_min (y :: ys) j1 (by simpa using hj)
    · next hmin =>
      push_neg at hmin
      rw [List.getD_cons_zero]
      cases j with
      | zero => simp
      | succ j1 =>
        rw [List.getD_cons_succ]
        exact le_trans hmin (argminIdx_min (y :: ys) j1 (by simpa using hj))

theorem argminIdx_first : ∀ (l : List Rat) (j : Nat), j < argminIdx l →
    l.getD (argminIdx l) 0 < l.getD j 0
  | [], _, hj => by simp [argminIdx] at hj
  | [_], _, hj => by simp [argminIdx] at hj
  | x :: y :: ys, j, hj => by
    simp only [argminIdx] at hj ⊢
    split
    · next hmin =>
      rw [List.getD_cons_succ]
      rw [if_pos hmin] at hj
      cases j with
      | zero => simpa using hmin
      | succ j1 =>
        rw [List.getD_cons_succ]
        exact argminIdx_first (y :: ys) j1 (Nat.lt_of_succ_lt_succ hj)
    · next hmin =>
      rw [if_neg hmin] at hj
      exact absurd hj (Nat.not_lt_zero j)

theorem getD_map_of_lt {α β : Type} (f : α → β) (l : List α) (j : Nat)
    (hj : j < l.length) (d : β) (d0 : α) :
    (l.map f).getD j d = f (l.getD j d0) := by
  rw [List.getD_eq_getElem (l.map f) d (by simpa using hj),
    List.getD_eq_getElem l d0 hj, List.getElem_map]

theorem le_maxNat (l : List Nat) (v : Nat) (hv : v ∈ l) : v ≤ maxNat l := by
  induction l with
  | nil => simp at hv
  | cons x xs ih =>
    rcases List.mem_cons.mp hv with h | h
    · subst h; exact le_max_left _ _
    · exact le_trans (ih h) (le_max_right _ _)

theorem maxNat_le (l : List Nat) (k : Nat) (h : ∀ v ∈ l, v ≤ k) :
    maxNat l ≤ k := by
  induction l with
  | nil => exact Nat.zero_le k
  | cons x xs ih =>
    exact max_le (h x (List.mem_cons_self x xs))
      (ih (fun v hv => h v (List.mem_cons_of_mem x hv)))

theorem maxTag_eq_maxNat (m : Mesh) :
    maxTag m = maxNat (m.groups.map PhysGroup.tag) := by
  show m.groups.foldr (fun g acc => max g.tag acc) 0 = _
  induction m.groups with
  | nil => rfl
  | cons g gs ih => simp [maxNat, List.foldr] at ih ⊢; rw [ih]

theorem le_maxTag (m : Mesh) (g : PhysGroup) (hg : g ∈ m.groups) :
    g.tag ≤ maxTag m := by
  rw [maxTag_eq_maxNat]
  exact le_maxNat _ _ (List.mem_map_of_mem PhysGroup.tag hg)

theorem length_three_exists (l : List Rat) (h : l.length = 3) :
    ∃ a b c, l = [a, b, c] := by
  match l, h with
  | [a, b, c], _ => exact ⟨a, b, c, rfl⟩

theorem map_mod_eq_self (l : List Nat) (h : ∀ v ∈ l, v < 256) :
    l.map (fun v => v % 256) = l := by
  induction l with
  | nil => rfl
  | cons x xs ih =>
    rw [List.map_cons, Nat.mod_eq_of_lt (h x (List.mem_cons_self x xs)),
      ih (fun v hv => h v (List.mem_cons_of_mem x hv))]

theorem addAuto_snd (m : Mesh) (dim : Nat) (ents : List Nat) :
    (addPhysicalGroupAuto m dim ents).2 = maxTag m + 1 := rfl

theorem maxTag_addAuto (m : Mesh) (dim : Nat) (ents : List Nat) :
    maxTag (addPhysicalGroupAuto m dim ents).1 = maxTag m + 1 := by
  show max (maxTag m + 1) (maxTag m) = maxTag m + 1
  omega

theorem maxTag_setName (m : Mesh) (d tg : Nat) (n : String) :
    maxTag (setPhysicalName m d tg n) = maxTag m := rfl

theorem physNames_addAuto (m : Mesh) (dim : Nat) (ents : List Nat) :
    (addPhysicalGroupAuto m dim ents).1.physNames = m.physNames := rfl

theorem physNames_setName (m : Mesh) (d tg : Nat) (n : String) :
    (setPhysicalName m d tg n).physNames = ((d, tg), n) :: m.physNames := rfl

theorem addTissuesGo_physNames_mono : ∀ (ts : List String) (m : Mesh)
    (reg : List (String × Tissue)) (l : Nat) (x : (Nat × Nat) × String),
    x ∈ m.physNames → x ∈ (addTissuesGo m reg l ts).1.physNames
  | [], _, _, _, _, hx => hx
  | t :: ts, m, reg, l, x, hx => by
    simp only [addTissuesGo]
    apply addTissuesGo_physNames_mono ts
    simp only [physNames_setName, physNames_addAuto]
    exact List.mem_cons_of_mem _ (List.mem_cons_of_mem _ hx)

theorem addTissuesGo_lookup_of_not_mem : ∀ (ts : List String) (m : Mesh)
    (reg : List (String × Tissue)) (l : Nat) (s : String), s ∉ ts →
    ((addTissuesGo m reg l ts).2).lookup s = reg.lookup s
  | [], _, _, _, _, _ => rfl
  | t :: ts, m, reg, l, s, hs => by
    simp only [addTissuesGo]
    rw [addTissuesGo_lookup_of_not_mem ts _ _ _ s
      (fun h => hs (List.mem_cons_of_mem t h))]
    exact lookup_dictInsert_ne reg s t _
      (fun h => hs (h ▸ List.mem_cons_self t ts))

theorem addTissuesGo_spec : ∀ (ts : List String) (m : Mesh)
    (reg : List (String × Tissue)) (l : Nat), ts.Nodup →
    ∀ (k : Nat) (hk : k < ts.length),
    ((addTissuesGo m reg l ts).2).lookup (ts.get ⟨k, hk⟩) =
      some ⟨⟨2, [l + k + 1], maxTag m + 2 * k + 1⟩,
        ⟨3, [l + k + 1], maxTag m + 2 * k + 2⟩, []⟩ ∧
    ((2, maxTag m + 2 * k + 1), ts.get ⟨k, hk⟩) ∈
      (addTissuesGo m reg l ts).1.physNames ∧
    ((3, maxTag m + 2 * k + 2), ts.get ⟨k, hk⟩) ∈
      (addTissuesGo m reg l ts).1.physNames
  | [], _, _, _, _, k, hk => absurd hk (by simp)
  | t :: ts, m, reg, l, hnd, 0, hk => by
    have hnotmem : t ∉ ts := (List.nodup_cons.mp hnd).1
    simp only [addTissuesGo, List.get]
    refine ⟨?_, ?_, ?_⟩
    · rw [addTissuesGo_lookup_of_not_mem ts _ _ _ t hnotmem,
        lookup_dictInsert_self]
      simp only [addAuto_snd, maxTag_setName, maxTag_addAuto]
    · apply addTissuesGo_physNames_mono ts
      simp only [physNames_setName, physNames_addAuto, addAuto_snd,
        maxTag_setName, maxTag_addAuto]
      norm_num
    · apply addTissuesGo_physNames_mono ts
      simp only [physNames_setName, physNames_addAuto, addAuto_snd,
        maxTag_setName, maxTag_addAuto]
      norm_num
  | t :: ts, m, reg, l, hnd, k + 1, hk => by
    have hk1 : k < ts.length := by
      simp only [List.length_cons] at hk
      omega
    have ih := addTissuesGo_spec ts
      (setPhysicalName (addPhysicalGroupAuto
        (setPhysicalName (addPhysicalGroupAuto m 2 [l + 1]).1 2
          (addPhysicalGroupAuto m 2 [l + 1]).2 t) 3 [l + 1]).1 3
        (addPhysicalGroupAuto
          (setPhysicalName (addPhysicalGroupAuto m 2 [l + 1]).1 2
            (addPhysicalGroupAuto m 2 [l + 1]).2 t) 3 [l + 1]).2 t)
      (dictInsert reg t ⟨⟨2, [l + 1], (addPhysicalGroupAuto m 2 [l + 1]).2⟩,
        ⟨3, [l + 1], (addPhysicalGroupAuto
          (setPhysicalName (addPhysicalGroupAuto m 2 [l + 1]).1 2
            (addPhysicalGroupAuto m 2 [l + 1]).2 t) 3 [l + 1]).2⟩, []⟩)
      (l + 1) (List.nodup_cons.mp hnd).2 k hk1
    simp only [addTissuesGo, List.get]
    simp only [addAuto_snd, maxTag_setName, maxTag_addAuto] at ih ⊢
    have e1 : l + 1 + k + 1 = l + (k + 1) + 1 := by omega
    have e2 : maxTag m + 1 + 1 + (2 * k + 1) = maxTag m + 2 * (k + 1) + 1 := by
      omega
    have e3 : maxTag m + 1 + 1 + (2 * k + 2) = maxTag m + 2 * (k + 1) + 2 := by
      omega
    have e2a : maxTag m + 1 + 1 + 2 * k + 1 = maxTag m + 2 * (k + 1) + 1 := by
      omega
    have e3a : maxTag m + 1 + 1 + 2 * k + 2 = maxTag m + 2 * (k + 1) + 2 := by
      omega
    simp only [e1, e2, e3, e2a, e3a] at ih
    exact ih

theorem _add_point_sensor_on_node_some (m : Mesh) (name : String)
    (nodeTag : Nat) (c : Vec3) (hg : m.groups ≠ []) :
    _add_point_sensor_on_node m name nodeTag c =
      some (setPhysicalName
        (addPhysicalGroupTagged
          (addPointElem (addNodes0 (addDiscreteEntity0 m).1
            (addDiscreteEntity0 m).2 nodeTag c) (addDiscreteEntity0 m).2
            nodeTag)
          0 [(addDiscreteEntity0 m).2] (maxTag m + 1)).1
        0 (maxTag m + 1) name, (addDiscreteEntity0 m).2, maxTag m + 1) := by
  have key : _add_point_sensor_on_node m name nodeTag c =
      if m.groups = [] then none
      else some (setPhysicalName
        (addPhysicalGroupTagged
          (addPointElem (addNodes0 (addDiscreteEntity0 m).1
            (addDiscreteEntity0 m).2 nodeTag c) (addDiscreteEntity0 m).2
            nodeTag)
          0 [(addDiscreteEntity0 m).2] (maxTag m + 1)).1
        0 (maxTag m + 1) name, (addDiscreteEntity0 m).2, maxTag m + 1) := rfl
  rw [key, if_neg hg]

theorem _add_point_sensor_some (m : Mesh)
    (sensors : List (String × PointSensor)) (name : String) (cv : Vec3)
    (tags : List Nat) (ncoords : List Vec3) (tissue : String)
    (hne : ncoords ≠ []) (hg : m.groups ≠ []) :
    ∃ m1 entity group,
      _add_point_sensor m sensors name cv tags ncoords tissue =
        some (m1, dictInsert sensors name
          ⟨tissue, cv,
            ncoords.getD (argminIdx (ncoords.map (fun c => distSq cv c)))
              ⟨0, 0, 0⟩,
            ⟨0, [entity], group⟩,
            tags.getD (argminIdx (ncoords.map (fun c => distSq cv c))) 0⟩) := by
  simp only [_add_point_sensor]
  rw [if_neg hne, _add_point_sensor_on_node_some m name _ _ hg]
  exact ⟨_, _, _, rfl⟩

theorem _get_tissue_nodes_lengths (fem : FEM) (tissue : String) (dim : Nat)
    (tags : List Nat) (ncoords : List Vec3)
    (h : _get_tissue_nodes fem tissue dim = some (tags, ncoords)) :
    (∃ t, fem.tissues.lookup tissue = some t) ∧
    tags.length = ncoords.length := by
  unfold _get_tissue_nodes at h
  cases hl : fem.tissues.lookup tissue with
  | none =>
    rw [hl] at h
    exact Option.noConfusion h
  | some t =>
    rw [hl] at h
    refine ⟨⟨t, rfl⟩, ?_⟩
    dsimp only at h
    split at h
    · exact Option.noConfusion h
    · split at h
      · exact Option.noConfusion h
      · simp only [Option.some.injEq, Prod.mk.injEq] at h
        rw [← h.1, ← h.2]
        simp

-- Claim theorems -------------------------------------------------------------

/-- C1: a successful `add_point_sensor` call — fresh name, 3-component
coordinates, existing tissue whose dim-group contributes at least one node,
on a mesh with at least one physical group — scales the requested
coordinates by 1e-3 and snaps the sensor to the node whose coordinates
minimise the Euclidean distance (equivalently the squared distance) to the
scaled query over the concatenated nodes of the tissue entities; among ties
the first index in concatenation order is chosen, and the recorded sensor
stores that node tag and its coordinates. -/
theorem add_point_sensor_snaps_nearest (fem : FEM) (name : String)
    (coords : List Rat) (tissue : String) (dim : Nat)
    (tags : List Nat) (ncoords : List Vec3)
    (hfresh : fem.sensors.lookup name = none)
    (hlen : coords.length = 3)
    (hnodes : _get_tissue_nodes fem tissue dim = some (tags, ncoords))
    (hne : ncoords ≠ [])
    (hgroups : fem.mesh.groups ≠ []) :
    ∃ (fem1 : FEM) (s : PointSensor) (i : Nat),
      add_point_sensor fem name coords tissue dim = .ok fem1 ∧
      fem1.sensors.lookup name = some s ∧
      toVec3? (coords.map (fun v => mmPerM * v)) = some s.coords ∧
      tags.length = ncoords.length ∧
      i < ncoords.length ∧
      s.node = tags.getD i 0 ∧
      s.meshCoords = ncoords.getD i ⟨0, 0, 0⟩ ∧
      (∀ j, j < ncoords.length →
        distSq s.coords (ncoords.getD i ⟨0, 0, 0⟩) ≤
          distSq s.coords (ncoords.getD j ⟨0, 0, 0⟩)) ∧
      (∀ j, j < i →
        distSq s.coords (ncoords.getD i ⟨0, 0, 0⟩) <
          distSq s.coords (ncoords.getD j ⟨0, 0, 0⟩)) := by
  obtain ⟨⟨t, hl⟩, hlen2⟩ :=
    _get_tissue_nodes_lengths fem tissue dim tags ncoords hnodes
  obtain ⟨a, b, c, habc⟩ :=
    length_three_exists (coords.map (fun v => mmPerM * v)) (by simpa using hlen)
  obtain ⟨m1, entity, group, hstep⟩ :=
    _add_point_sensor_some fem.mesh fem.sensors name ⟨a, b, c⟩ tags ncoords
      tissue hne hgroups
  have h1 : (fem.sensors.lookup name).isSome = false := by rw [hfresh]; rfl
  have h3 : (fem.tissues.lookup tissue).isNone = false := by rw [hl]; rfl
  have hil : argminIdx (ncoords.map (fun cc => distSq ⟨a, b, c⟩ cc)) <
      ncoords.length := by
    have hd : (ncoords.map (fun cc => distSq ⟨a, b, c⟩ cc)) ≠ [] := by
      simpa using hne
    simpa using argminIdx_lt_length _ hd
  have hcall : add_point_sensor fem name coords tissue dim =
      .ok ⟨fem.tissues,
        dictInsert fem.sensors name
          ⟨tissue, ⟨a, b, c⟩,
            ncoords.getD
              (argminIdx (ncoords.map (fun cc => distSq ⟨a, b, c⟩ cc)))
              ⟨0, 0, 0⟩,
            ⟨0, [entity], group⟩,
            tags.getD
              (argminIdx (ncoords.map (fun cc => distSq ⟨a, b, c⟩ cc)))
              0⟩,
        removeDuplicateNodes m1⟩ := by
    simp only [add_point_sensor, h1, h3, hnodes, habc, Bool.false_eq_true,
      if_false, if_neg (not_not_intro hlen)]
    dsimp only [toVec3?]
    rw [hstep]
  refine ⟨_, _, argminIdx (ncoords.map (fun cc => distSq ⟨a, b, c⟩ cc)),
    hcall, lookup_dictInsert_self fem.sensors name _, ?_, hlen2, hil, rfl,
    rfl, ?_, ?_⟩
  · rw [habc]
    rfl
  · intro j hj
    have hmin := argminIdx_min (ncoords.map (fun cc => distSq ⟨a, b, c⟩ cc))
      j (by simpa using hj)
    rw [getD_map_of_lt _ ncoords _ hil 0 ⟨0, 0, 0⟩,
      getD_map_of_lt _ ncoords j hj 0 ⟨0, 0, 0⟩] at hmin
    exact hmin
  · intro j hj
    have hfirst := argminIdx_first
      (ncoords.map (fun cc => distSq ⟨a, b, c⟩ cc)) j hj
    rw [getD_map_of_lt _ ncoords _ hil 0 ⟨0, 0, 0⟩,
      getD_map_of_lt _ ncoords j (Nat.lt_trans hj hil) 0 ⟨0, 0, 0⟩] at hfirst
    exact hfirst

/-- Witness for C1 on the synthetic three-node layout at x-distances 5, 1
and 3 meters from the origin: the sensor snaps to node 11, the one at
distance 1. -/
theorem add_point_sensor_snaps_nearest_witness :
    _get_tissue_nodes femSensor "t" 3 =
      some ([10, 11, 12], [⟨5, 0, 0⟩, ⟨1, 0, 0⟩, ⟨3, 0, 0⟩]) ∧
    (∃ (fem1 : FEM) (s : PointSensor) (i : Nat),
      add_point_sensor femSensor "s" [0, 0, 0] "t" 3 = .ok fem1 ∧
      fem1.sensors.lookup "s" = some s ∧
      toVec3? (([0, 0, 0] : List Rat).map (fun v => mmPerM * v)) =
        some s.coords ∧
      ([10, 11, 12] : List Nat).length =
        ([⟨5, 0, 0⟩, ⟨1, 0, 0⟩, ⟨3, 0, 0⟩] : List Vec3).length ∧
      i < ([⟨5, 0, 0⟩, ⟨1, 0, 0⟩, ⟨3, 0, 0⟩] : List Vec3).length ∧
      s.node = ([10, 11, 12] : List Nat).getD i 0 ∧
      s.meshCoords =
        ([⟨5, 0, 0⟩, ⟨1, 0, 0⟩, ⟨3, 0, 0⟩] : List Vec3).getD i ⟨0, 0, 0⟩ ∧
      (∀ j, j < ([⟨5, 0, 0⟩, ⟨1, 0, 0⟩, ⟨3, 0, 0⟩] : List Vec3).length →
        distSq s.coords
            (([⟨5, 0, 0⟩, ⟨1, 0, 0⟩, ⟨3, 0, 0⟩] : List Vec3).getD i
              ⟨0, 0, 0⟩) ≤
          distSq s.coords
            (([⟨5, 0, 0⟩, ⟨1, 0, 0⟩, ⟨3, 0, 0⟩] : List Vec3).getD j
              ⟨0, 0, 0⟩)) ∧
      (∀ j, j < i →
        distSq s.coords
            (([⟨5, 0, 0⟩, ⟨1, 0, 0⟩, ⟨3, 0, 0⟩] : List Vec3).getD i
              ⟨0, 0, 0⟩) <
          distSq s.coords
            (([⟨5, 0, 0⟩, ⟨1, 0, 0⟩, ⟨3, 0, 0⟩] : List Vec3).getD j
              ⟨0, 0, 0⟩))) :=
  ⟨by decide,
    add_point_sensor_snaps_nearest femSensor "s" [0, 0, 0] "t" 3
      [10, 11, 12] [⟨5, 0, 0⟩, ⟨1, 0, 0⟩, ⟨3, 0, 0⟩] (by decide) (by decide)
      (by decide) (by decide) (by decide)⟩

/-- C6 counterexample: a batch `add_point_sensors` call whose single entry
reuses the already-registered sensor name s1 succeeds (no error at all), and
the registry entry for s1 is silently replaced, contradicting the claim that
every placement call with an existing name fails before any mesh access. -/
theorem batch_duplicate_sensor_not_rejected :
    (add_point_sensors femDup [("s1", [0, 0, 0])] "t" 3).isOk = true ∧
    ((add_point_sensors femDup [("s1", [0, 0, 0])] "t" 3).toOption.bind
      (fun f => f.sensors.lookup "s1")).map PointSensor.node = some 11 ∧
    (femDup.sensors.lookup "s1").map PointSensor.node = some 10 := by
  refine ⟨by decide, by with_unfolding_all rfl, by decide⟩

/-- C6 amended: only the single-sensor `add_point_sensor` rejects an
already-registered sensor name, doing so with an error raised before the
mesh file is opened or touched (the embedded call returns the error without
producing any new model state); the batch `add_point_sensors` performs no
duplicate-name check at all — it can never return the duplicate-sensor
error and instead silently overwrites the existing registry entry. -/
theorem sensor_duplicate_check_single_only :
    (∀ (fem : FEM) (name : String) (coords : List Rat) (tissue : String)
      (dim : Nat), (fem.sensors.lookup name).isSome = true →
      add_point_sensor fem name coords tissue dim = .error .duplicateSensor) ∧
    (∀ (fem : FEM) (coords : List (String × List Rat)) (tissue : String)
      (dim : Nat),
      add_point_sensors fem coords tissue dim ≠ .error .duplicateSensor) := by
  constructor
  · intro fem name coords tissue dim h
    simp [add_point_sensor, h]
  · intro fem coords tissue dim hEq
    simp only [add_point_sensors] at hEq
    split at hEq
    · simp at hEq
    · split at hEq
      · simp at hEq
      · split at hEq
        · simp at hEq
        · simp at hEq

/-- Witness for C6 amended: the single-sensor call with the existing name s1
is rejected with the duplicate-sensor error. -/
theorem sensor_duplicate_check_single_only_witness :
    add_point_sensor femDup "s1" [0, 0, 0] "t" 3 = .error .duplicateSensor :=
  sensor_duplicate_check_single_only.1 femDup "s1" [0, 0, 0] "t" 3 (by decide)

/-- C9: `field_from_nii` always raises a NameError because line 811 of
fem.py passes the unbound name `tissues` instead of the `tissue` parameter,
while the direct `field_from_array` call it was supposed to delegate to
succeeds on the same loaded image data; the wrapper therefore is not
behaviourally equal to the delegation the claim describes. -/
theorem field_from_nii_raises_name_error :
    field_from_nii femGrid "f" grid9 (2, 2, 2) affId "t" [7] "1" true =
      .error .nameError ∧
    (field_from_array femGrid "f" grid9 (2, 2, 2) affId "t" [7] "1"
      true).isOk = true := by
  exact ⟨rfl, by decide⟩

/-- C8: the grid interpolation of `_interp_field` is built over the unique
ascending-sorted per-axis voxel coordinate values, pairs its results with the
volume element tags of the tissue, and any barycenter having a coordinate
outside the bounds of that grid receives exactly the fill value instead of
an error, under both the nearest and the linear method. -/
theorem interp_field_oob_gets_fill (fem : FEM) (tissue : String)
    (coords : List Vec3) (g : Grid3) (method : InterpMethod) (fill : Rat)
    (i : Nat) (hi : i < (_get_tissue_vol_elems_coords fem tissue).length)
    (hoob : (oob (npUnique (coords.map Vec3.x))
        ((_get_tissue_vol_elems_coords fem tissue).getD i ⟨0, 0, 0⟩).x
      || oob (npUnique (coords.map Vec3.y))
        ((_get_tissue_vol_elems_coords fem tissue).getD i ⟨0, 0, 0⟩).y
      || oob (npUnique (coords.map Vec3.z))
        ((_get_tissue_vol_elems_coords fem tissue).getD i ⟨0, 0, 0⟩).z) = true) :
    (_interp_field fem tissue coords g method fill).1 =
      _get_tissue_vol_elems fem tissue ∧
    (_interp_field fem tissue coords g method fill).2.getD i 0 = fill := by
  refine ⟨rfl, ?_⟩
  have h2 : (_interp_field fem tissue coords g method fill).2 =
      (_get_tissue_vol_elems_coords fem tissue).map
        (fun c => interpRGI (npUnique (coords.map Vec3.x))
          (npUnique (coords.map Vec3.y)) (npUnique (coords.map Vec3.z))
          g method fill c) := rfl
  rw [h2, getD_map_of_lt _ (_get_tissue_vol_elems_coords fem tissue) i hi 0
    ⟨0, 0, 0⟩]
  unfold interpRGI
  rw [if_pos hoob]

/-- Witness for C8: a barycenter at x = 100, far outside the grid spanning
0..1 on every axis, receives the fill value 7 under the linear method. -/
theorem interp_field_oob_gets_fill_witness :
    0 < (_get_tissue_vol_elems_coords femFar "t").length ∧
    (_interp_field femFar "t" [⟨0, 0, 0⟩, ⟨1, 1, 1⟩] [[[1]]]
      .linear 7).2.getD 0 0 = 7 :=
  ⟨by decide, (interp_field_oob_gets_fill femFar "t" [⟨0, 0, 0⟩, ⟨1, 1, 1⟩]
    [[[1]]] .linear 7 0 (by decide) (by decide)).2⟩

set_option maxRecDepth 4000 in
/-- C10: `mesh_from_array` casts the labels to unsigned 8-bit before any
validation, so a label volume containing the 16-bit value 300 is wrapped to
300 mod 256 = 44: the tissue-count check accepts 44 names (and hands the
wrapped labels [0, 44] on to cropping and meshing) while 300 names — one per
original label value — are rejected with the count-mismatch error. -/
theorem mesh_from_array_wraps_uint8 :
    mesh_from_array_valid [0, 300] 3 (4, 4) (List.replicate 44 "t") =
      .ok [0, 44] ∧
    mesh_from_array_valid [0, 300] 3 (4, 4) (List.replicate 300 "t") =
      .error .tissueCountMismatch := by decide

/-- C4: for a label volume whose values are exactly the contiguous range
0..k (so it has k distinct nonzero labels and maximum label value k), the
validation phase of `mesh_from_array` succeeds exactly when the number of
tissue names equals k, and rejects any other count — in particular k + 1 or
k - 1 names — with the tissue-count-mismatch error; the number of distinct
nonzero labels equals k. -/
theorem mesh_from_array_tissue_count (labels : List Nat) (tissues : List String)
    (k : Nat) (hcontig : labels.toFinset = Finset.range (k + 1)) (hk : k < 256) :
    (mesh_from_array_valid labels 3 (4, 4) tissues = .error .tissueCountMismatch ↔
      tissues.length ≠ k) ∧
    ((mesh_from_array_valid labels 3 (4, 4) tissues).isOk ↔ tissues.length = k) ∧
    (labels.toFinset.erase 0).card = k := by
  have hmem : ∀ v ∈ labels, v ≤ k := by
    intro v hv
    have h1 : v ∈ Finset.range (k + 1) := by
      rw [← hcontig]
      exact List.mem_toFinset.mpr hv
    exact Nat.lt_succ_iff.mp (Finset.mem_range.mp h1)
  have hmap : labels.map (fun v => v % 256) = labels :=
    map_mod_eq_self labels (fun v hv => lt_of_le_of_lt (hmem v hv) hk)
  have h0 : (0 : Nat) ∈ labels := by
    apply List.mem_toFinset.mp
    rw [hcontig]
    exact Finset.mem_range.mpr (Nat.succ_pos k)
  have hne : labels ≠ [] := List.ne_nil_of_mem h0
  have hmax : maxNat labels = k := by
    refine le_antisymm (maxNat_le labels k hmem) (le_maxNat labels k ?_)
    apply List.mem_toFinset.mp
    rw [hcontig]
    exact Finset.self_mem_range_succ k
  have hcard : (labels.toFinset.erase 0).card = k := by
    rw [hcontig,
      Finset.card_erase_of_mem (Finset.mem_range.mpr (Nat.succ_pos k)),
      Finset.card_range]
    omega
  have hval : mesh_from_array_valid labels 3 (4, 4) tissues =
      if tissues.length ≠ k then .error .tissueCountMismatch
      else .ok labels := by
    simp only [mesh_from_array_valid, hmap, hmax]
    rw [if_neg (by simp), if_neg (by simp), if_neg hne]
  refine ⟨?_, ?_, hcard⟩
  · rw [hval]
    by_cases h : tissues.length = k
    · simp [h]
    · simp [h]
  · rw [hval]
    by_cases h : tissues.length = k
    · simp [h, Except.isOk, Except.toBool]
    · simp [h, Except.isOk, Except.toBool]

/-- Witness for C4 with labels 0, 1, 2 (two tissues) and two names. -/
theorem mesh_from_array_tissue_count_witness :
    (mesh_from_array_valid [0, 1, 2] 3 (4, 4) ["a", "b"] =
        .error .tissueCountMismatch ↔ (["a", "b"] : List String).length ≠ 2) ∧
    ((mesh_from_array_valid [0, 1, 2] 3 (4, 4) ["a", "b"]).isOk ↔
      (["a", "b"] : List String).length = 2) ∧
    (([0, 1, 2] : List Nat).toFinset.erase 0).card = 2 :=
  mesh_from_array_tissue_count [0, 1, 2] ["a", "b"] 2 (by decide) (by decide)

/-- C5: tissue tagging is strictly order-dependent: the tissue at 0-based
position k of the ordered name list is registered on mesh entity k + 1 with
exactly one surface group (dimension 2) and one volume group (dimension 3),
each wrapping the single entity k + 1, and both physical groups carry the
tissue name; the allocated group tags (2k + 1 surface, 2k + 2 volume) are
distinct across all tissues, so no merging occurs. -/
theorem add_tissues_order_mapping (names : List String) (hnd : names.Nodup)
    (k : Nat) (hk : k < names.length) :
    ((_add_tissues names).2).lookup (names.get ⟨k, hk⟩) =
      some ⟨⟨2, [k + 1], 2 * k + 1⟩, ⟨3, [k + 1], 2 * k + 2⟩, []⟩ ∧
    ((2, 2 * k + 1), names.get ⟨k, hk⟩) ∈ (_add_tissues names).1.physNames ∧
    ((3, 2 * k + 2), names.get ⟨k, hk⟩) ∈ (_add_tissues names).1.physNames := by
  have h := addTissuesGo_spec names ⟨[], [], [], [], [], [], [], []⟩ [] 0 hnd k hk
  simpa [_add_tissues, maxTag] using h

/-- Witness for C5: the second of two tissues lands on entity 2 with groups
3 and 4, both named after it. -/
theorem add_tissues_order_mapping_witness :
    ((_add_tissues ["a", "b"]).2).lookup
        ((["a", "b"] : List String).get ⟨1, by norm_num⟩) =
      some ⟨⟨2, [2], 3⟩, ⟨3, [2], 4⟩, []⟩ ∧
    ((2, 3), (["a", "b"] : List String).get ⟨1, by norm_num⟩) ∈
      (_add_tissues ["a", "b"]).1.physNames ∧
    ((3, 4), (["a", "b"] : List String).get ⟨1, by norm_num⟩) ∈
      (_add_tissues ["a", "b"]).1.physNames :=
  add_tissues_order_mapping ["a", "b"] (by decide) 1 (by norm_num)

/-- C7: on a mesh with at least one physical group, placing a point sensor
allocates the physical-group id `max(existing ids over all dimensions) + 1`,
which is strictly greater than every existing group id, so pairwise
distinctness of physical-group ids across the whole mesh is preserved. -/
theorem sensor_group_id_fresh (m : Mesh) (name : String) (nodeTag : Nat)
    (c : Vec3) (hne : m.groups ≠ []) :
    ∃ m1 entity group,
      _add_point_sensor_on_node m name nodeTag c = some (m1, entity, group) ∧
      group = maxTag m + 1 ∧
      (∀ g ∈ m.groups, g.tag < group) ∧
      ((m.groups.map PhysGroup.tag).Nodup → (m1.groups.map PhysGroup.tag).Nodup) := by
  have key : _add_point_sensor_on_node m name nodeTag c =
      if m.groups = [] then none
      else some (setPhysicalName
        (addPhysicalGroupTagged
          (addPointElem
            (addNodes0 (addDiscreteEntity0 m).1 (addDiscreteEntity0 m).2
              nodeTag c)
            (addDiscreteEntity0 m).2 nodeTag)
          0 [(addDiscreteEntity0 m).2] (maxTag m + 1)).1
        0 (maxTag m + 1) name, (addDiscreteEntity0 m).2, maxTag m + 1) := rfl
  rw [key, if_neg hne]
  refine ⟨_, _, _, rfl, rfl,
    fun g hg => Nat.lt_succ_of_le (le_maxTag m g hg), fun hnd => ?_⟩
  show (List.map PhysGroup.tag
    (PhysGroup.mk 0 (maxTag m + 1) [(addDiscreteEntity0 m).2] :: m.groups)).Nodup
  rw [List.map_cons]
  refine List.nodup_cons.mpr ⟨fun hmem => ?_, hnd⟩
  obtain ⟨g, hg, htag⟩ := List.mem_map.mp hmem
  exact absurd htag (Nat.ne_of_lt (Nat.lt_succ_of_le (le_maxTag m g hg)))

/-- Witness for C7 at the concrete sensor mesh. -/
theorem sensor_group_id_fresh_witness :
    meshSensor.groups ≠ [] ∧
    (∃ m1 entity group,
      _add_point_sensor_on_node meshSensor "s" 11 ⟨1, 0, 0⟩ =
        some (m1, entity, group) ∧
      group = maxTag meshSensor + 1 ∧
      (∀ g ∈ meshSensor.groups, g.tag < group) ∧
      ((meshSensor.groups.map PhysGroup.tag).Nodup →
        (m1.groups.map PhysGroup.tag).Nodup)) :=
  ⟨by decide, sensor_group_id_fresh meshSensor "s" 11 ⟨1, 0, 0⟩ (by decide)⟩

end Shamo
